import Mathlib

/-!
Verification of the register-to-domain mapping layer of the bmi270 crate.

The data model (structs and enums) is embedded from `src/src/types.rs`.
The repository snapshot ships only the type declarations; the encode/decode
operations of the layer are modelled from the specification, as marked on
each definition.

Machine integers are embedded as `Nat` (unsigned registers and bytes) and
`Int` (signed 16-bit sample words), with explicit bounds where they matter.
-/

set_option maxRecDepth 100000

namespace Bmi270

/-- Reports sensor error conditions (`ErrorReg` in `types.rs`):
`fatal_err : bool`, `internal_err : u8`, `fifo_err : bool`, `aux_err : bool`. -/
structure ErrorReg where
  fatal_err : Bool
  internal_err : Nat
  fifo_err : Bool
  aux_err : Bool
deriving DecidableEq, Repr

/-- Sensor status flags (`Status` in `types.rs`): five independent booleans. -/
structure Status where
  acc_data_ready : Bool
  gyr_data_ready : Bool
  aux_data_ready : Bool
  cmd_ready : Bool
  aux_dev_busy : Bool
deriving DecidableEq, Repr

/-- Axis data (`AxisData` in `types.rs`): three signed 16-bit words. -/
structure AxisData where
  x : Int
  y : Int
  z : Int
deriving DecidableEq, Repr

/-- Auxiliary sensor data (`AuxData` in `types.rs`): axis data plus the raw
last-registers field `r : i16`. -/
structure AuxData where
  axis : AxisData
  r : Int
deriving DecidableEq, Repr

/-- Sensor data (`Data` in `types.rs`): accelerometer, gyroscope, u32 time. -/
structure Data where
  acc : AxisData
  gyr : AxisData
  time : Nat
deriving DecidableEq, Repr

/-- Possible persistent errors (`PersistentErrors` in `types.rs`), in source
declaration order, so ordinals are NoErr = 0, AccErr = 1, GyrErr = 2,
AccGyrErr = 3. -/
inductive PersistentErrors where
  | NoErr
  | AccErr
  | GyrErr
  | AccGyrErr
deriving DecidableEq, Repr

/-- Sensor event flags (`Event` in `types.rs`). -/
structure Event where
  por_detected : Bool
  persistent_err : PersistentErrors
deriving DecidableEq, Repr

/-- Wrist gestures (`WristGesture` in `types.rs`), in source declaration
order: Unknown is the FIRST variant (ordinal 0). -/
inductive WristGesture where
  | Unknown
  | PushArmDown
  | PivotUp
  | Shake
  | FlickIn
  | FlickOut
deriving DecidableEq, Repr

/-- Activity detection (`Activity` in `types.rs`), in source declaration
order: Unknown is the LAST variant (ordinal 3). -/
inductive Activity where
  | Still
  | Walking
  | Running
  | Unknown
deriving DecidableEq, Repr

/-- Wrist gesture and activity (`WristGestureActivity` in `types.rs`). -/
structure WristGestureActivity where
  wrist_gesture : WristGesture
  activity : Activity
deriving DecidableEq, Repr

/-- Internal status message (`Message` in `types.rs`), in source declaration
order, ordinals 0..7. -/
inductive Message where
  | NotInit
  | InitOk
  | InitErr
  | DrvErr
  | SnsErr
  | NvmErr
  | StartUpErr
  | CompatErr
deriving DecidableEq, Repr

/-- Internal status (`InternalStatus` in `types.rs`). -/
structure InternalStatus where
  message : Message
  axes_remap_error : Bool
  odr_50hz_error : Bool
deriving DecidableEq, Repr

/-- Accelerometer Output Data Rate (`AccOdr` in `types.rs`): 15 variants in
source declaration order, ordinals 0..14. -/
inductive AccOdr where
  | Odr0p78
  | Odr1p5
  | Odr3p1
  | Odr6p25
  | Odr12p5
  | Odr25
  | Odr50
  | Odr100
  | Odr200
  | Odr400
  | Odr800
  | Odr1k6
  | Odr3k2
  | Odr6k4
  | Odr12k8
deriving DecidableEq, Repr

/-- Accelerometer filter config and averaging (`AccBwp` in `types.rs`):
8 variants in source declaration order, ordinals 0..7. -/
inductive AccBwp where
  | Osr4Avg1
  | Osr2Avg2
  | NormAvg4
  | CicAvg8
  | ResAvg16
  | ResAvg32
  | ResAvg64
  | ResAvg128
deriving DecidableEq, Repr

/-- Accelerometer filter performance mode (`AccFilterPerf` in `types.rs`). -/
inductive AccFilterPerf where
  | Power
  | Perf
deriving DecidableEq, Repr

/-- Accelerometer configuration (`AccConf` in `types.rs`). -/
structure AccConf where
  odr : AccOdr
  bwp : AccBwp
  filter_perf : AccFilterPerf
deriving DecidableEq, Repr

/-- Ordinal of an `AccOdr` variant, following the source declaration order of
`AccOdr` in `types.rs` (Rust discriminants are implicit, hence 0-based). -/
def accOdrBits : AccOdr → Nat
  | .Odr0p78 => 0
  | .Odr1p5 => 1
  | .Odr3p1 => 2
  | .Odr6p25 => 3
  | .Odr12p5 => 4
  | .Odr25 => 5
  | .Odr50 => 6
  | .Odr100 => 7
  | .Odr200 => 8
  | .Odr400 => 9
  | .Odr800 => 10
  | .Odr1k6 => 11
  | .Odr3k2 => 12
  | .Odr6k4 => 13
  | .Odr12k8 => 14

/-- Ordinal of an `AccBwp` variant, following the source declaration order of
`AccBwp` in `types.rs`. -/
def accBwpBits : AccBwp → Nat
  | .Osr4Avg1 => 0
  | .Osr2Avg2 => 1
  | .NormAvg4 => 2
  | .CicAvg8 => 3
  | .ResAvg16 => 4
  | .ResAvg32 => 5
  | .ResAvg64 => 6
  | .ResAvg128 => 7

/-- Ordinal of an `AccFilterPerf` variant, following the source declaration
order of `AccFilterPerf` in `types.rs` (Power = 0, Perf = 1). -/
def accFilterPerfBit : AccFilterPerf → Nat
  | .Power => 0
  | .Perf => 1

/-- Modelled from the spec: the `AccConf` encoder is absent from the supplied
source (only the `AccConf` type is declared). The spec: the odr ordinal
occupies the low nibble (bits 0-3), the bwp ordinal the next 3 bits
(bits 4-6), and filter_perf the high bit (bit 7, 0 = Power, 1 = Perf);
encode is total and produces one whole byte. -/
def accConfEncode (c : AccConf) : Nat :=
  accOdrBits c.odr + 16 * accBwpBits c.bwp + 128 * accFilterPerfBit c.filter_perf

/-- Modelled from the spec: inverse ordinal lookup for the 4-bit odr field.
The 15 enum ordinals 0-14 are exactly the valid field values; the one
remaining nibble value 15 is not the image of any variant, so the lookup
is `Option`-valued. -/
def accOdrDecode : Nat → Option AccOdr
  | 0 => some .Odr0p78
  | 1 => some .Odr1p5
  | 2 => some .Odr3p1
  | 3 => some .Odr6p25
  | 4 => some .Odr12p5
  | 5 => some .Odr25
  | 6 => some .Odr50
  | 7 => some .Odr100
  | 8 => some .Odr200
  | 9 => some .Odr400
  | 10 => some .Odr800
  | 11 => some .Odr1k6
  | 12 => some .Odr3k2
  | 13 => some .Odr6k4
  | 14 => some .Odr12k8
  | _ => none

/-- Modelled from the spec: inverse ordinal lookup for the 3-bit bwp field
(all 8 field values are enum ordinals, so the lookup is total; the `Nat`
argument is taken modulo nothing because callers pass a value below 8,
and out-of-range values fall back to the last variant). -/
def accBwpDecode : Nat → AccBwp
  | 0 => .Osr4Avg1
  | 1 => .Osr2Avg2
  | 2 => .NormAvg4
  | 3 => .CicAvg8
  | 4 => .ResAvg16
  | 5 => .ResAvg32
  | 6 => .ResAvg64
  | _ => .ResAvg128

/-- Modelled from the spec: inverse lookup for the 1-bit filter_perf field
(0 = Power, anything else = Perf). -/
def accFilterPerfDecode (n : Nat) : AccFilterPerf :=
  if n = 0 then .Power else .Perf

/-- Modelled from the spec: the `AccConf` decoder, inverse of
`accConfEncode`: low nibble is the odr field, bits 4-6 the bwp field,
bit 7 the filter_perf field. -/
def accConfDecode (b : Nat) : Option AccConf :=
  match accOdrDecode (b % 16) with
  | none => none
  | some odr =>
      some { odr := odr
             bwp := accBwpDecode (b / 16 % 8)
             filter_perf := accFilterPerfDecode (b / 128 % 2) }

/-- Two's-complement reading of 16 raw register bits as an `i16` value: the
unique integer in [-32768, 32768) congruent to the raw bits modulo 2^16. -/
def i16OfRaw (raw : Nat) : Int :=
  if raw % 65536 < 32768 then (raw % 65536 : Nat) else (raw % 65536 : Nat) - 65536

/-- Little-endian assembly of two register bytes into an `i16` sample word. -/
def i16OfLe (lo hi : Nat) : Int :=
  i16OfRaw (lo % 256 + 256 * (hi % 256))

/-- Modelled from the spec: the `AxisData` decoder is absent from the
supplied source (only the `AxisData` type is declared). The spec: the 6-byte
input is three consecutive little-endian signed 16-bit words assigned to
(x, y, z). Inputs of any other length are not a valid axis burst. -/
def axisDataDecode : List Nat → Option AxisData
  | [b0, b1, b2, b3, b4, b5] =>
      some { x := i16OfLe b0 b1, y := i16OfLe b2 b3, z := i16OfLe b4 b5 }
  | _ => none

/-- Modelled from the spec: the `AuxData` decoder is absent from the supplied
source. The spec: `AxisData` decode plus one extra raw 16-bit field `r`,
whose declared type in `types.rs` is `i16`, read with the same little-endian
two's-complement interpretation. -/
def auxDataDecode : List Nat → Option AuxData
  | [b0, b1, b2, b3, b4, b5, b6, b7] =>
      some { axis := { x := i16OfLe b0 b1, y := i16OfLe b2 b3, z := i16OfLe b4 b5 }
             r := i16OfLe b6 b7 }
  | _ => none

/-- Modelled from the spec: the `Status` decoder is absent from the supplied
source (only the `Status` type is declared). The spec: extract the 5 named
bits from a single status byte at the fixed vendor bit positions
(drdy_acc = bit 7, drdy_gyr = bit 6, drdy_aux = bit 5, cmd_rdy = bit 4,
aux_busy = bit 2); unused bits are ignored and decode is total. -/
def statusDecode (b : Nat) : Status :=
  { acc_data_ready := (b % 256).testBit 7
    gyr_data_ready := (b % 256).testBit 6
    aux_data_ready := (b % 256).testBit 5
    cmd_ready := (b % 256).testBit 4
    aux_dev_busy := (b % 256).testBit 2 }

/-- Modelled from the spec: the `ErrorReg` decoder is absent from the
supplied source. The spec: `fatal_err` is bit 0, `internal_err` the 4-bit
diagnostic nibble in bits 1-4, `fifo_err` and `aux_err` their vendor bits
(6 and 7). -/
def errorRegDecode (b : Nat) : ErrorReg :=
  { fatal_err := (b % 256).testBit 0
    internal_err := b % 256 / 2 % 16
    fifo_err := (b % 256).testBit 6
    aux_err := (b % 256).testBit 7 }

/-- Modelled from the spec: ordinal mapping of the 2-bit persistent-error
field onto the 4-value `PersistentErrors` enumeration, following the source
declaration order. -/
def persistentErrorsDecode : Nat → PersistentErrors
  | 0 => .NoErr
  | 1 => .AccErr
  | 2 => .GyrErr
  | _ => .AccGyrErr

/-- Modelled from the spec: the `Event` decoder is absent from the supplied
source. The spec: `por_detected` is bit 0 and `persistent_err` the 2-bit
field in bits 1-2, mapped by ordinal onto `PersistentErrors`. -/
def eventDecode (b : Nat) : Event :=
  { por_detected := (b % 256).testBit 0
    persistent_err := persistentErrorsDecode (b % 256 / 2 % 4) }

/-- Modelled from the spec: ordinal lookup of the 4-bit internal-status
message nibble onto `Message`, following the source declaration order;
the spec maps undefined nibble values (8-15) to the documented fallback
variant `DrvErr`. -/
def messageDecode : Nat → Message
  | 0 => .NotInit
  | 1 => .InitOk
  | 2 => .InitErr
  | 3 => .DrvErr
  | 4 => .SnsErr
  | 5 => .NvmErr
  | 6 => .StartUpErr
  | 7 => .CompatErr
  | _ => .DrvErr

/-- Modelled from the spec: the `InternalStatus` decoder is absent from the
supplied source. The spec: `message` from the low 4-bit nibble by ordinal
lookup with fallback, plus the two independent error bits at their vendor
positions (axes_remap_error = bit 5, odr_50hz_error = bit 6). -/
def internalStatusDecode (b : Nat) : InternalStatus :=
  { message := messageDecode (b % 256 % 16)
    axes_remap_error := (b % 256).testBit 5
    odr_50hz_error := (b % 256).testBit 6 }

/-- Ordinal of a `WristGesture` variant, following the source declaration
order of `WristGesture` in `types.rs` (Unknown is first, ordinal 0). -/
def wristGestureBits : WristGesture → Nat
  | .Unknown => 0
  | .PushArmDown => 1
  | .PivotUp => 2
  | .Shake => 3
  | .FlickIn => 4
  | .FlickOut => 5

/-- Ordinal of an `Activity` variant, following the source declaration order
of `Activity` in `types.rs` (Unknown is last, ordinal 3). -/
def activityBits : Activity → Nat
  | .Still => 0
  | .Walking => 1
  | .Running => 2
  | .Unknown => 3

/-- Modelled from the spec: ordinal lookup of a raw gesture code onto
`WristGesture`; unknown codes map to `Unknown`. -/
def wristGestureDecode : Nat → WristGesture
  | 0 => .Unknown
  | 1 => .PushArmDown
  | 2 => .PivotUp
  | 3 => .Shake
  | 4 => .FlickIn
  | 5 => .FlickOut
  | _ => .Unknown

/-- Modelled from the spec: ordinal lookup of a raw activity code onto
`Activity`; unknown codes map to `Unknown`. -/
def activityDecode : Nat → Activity
  | 0 => .Still
  | 1 => .Walking
  | 2 => .Running
  | _ => .Unknown

/-- C1: for every AccConf triple over the full enumeration space (15 AccOdr
values, 8 AccBwp values, 2 AccFilterPerf values), encoding to the
configuration-register byte and applying the inverse decode recovers exactly
the original (odr, bwp, filter_perf) triple. -/
theorem accConf_encode_decode_roundtrip (o : AccOdr) (w : AccBwp) (f : AccFilterPerf) :
    accConfDecode (accConfEncode { odr := o, bwp := w, filter_perf := f }) =
      some { odr := o, bwp := w, filter_perf := f } := by
  cases o <;> cases w <;> cases f <;> rfl

/-- C2: AccConf encode is a total function of the AccConf value alone (no
previous register value enters) producing one byte below 256, with the odr
ordinal (0-14) in the low nibble, the bwp ordinal (0-7) in bits 4-6, and
filter_perf (Power = 0, Perf = 1) in bit 7. -/
theorem accConf_encode_total_layout (c : AccConf) :
    accConfEncode c < 256 ∧
    accConfEncode c % 16 = accOdrBits c.odr ∧
    accConfEncode c / 16 % 8 = accBwpBits c.bwp ∧
    accConfEncode c / 128 % 2 = accFilterPerfBit c.filter_perf ∧
    accOdrBits c.odr ≤ 14 ∧
    accBwpBits c.bwp ≤ 7 ∧
    accFilterPerfBit .Power = 0 ∧ accFilterPerfBit .Perf = 1 := by
  obtain ⟨o, w, f⟩ := c
  cases o <;> cases w <;> cases f <;> decide

/-- C3: AxisData decode reads its 6-byte input as three consecutive
little-endian two's-complement signed 16-bit words assigned to (x, y, z):
each word is the unique integer in [-32768, 32768) congruent to the
little-endian byte value modulo 2^16, and the boundary input
[0x00, 0x80, 0xFF, 0x7F, 0x01, 0x00] decodes to x = -32768, y = 32767,
z = 1. -/
theorem axisData_decode_le_twos_complement :
    axisDataDecode [0x00, 0x80, 0xFF, 0x7F, 0x01, 0x00] =
      some { x := -32768, y := 32767, z := 1 } ∧
    ∀ lo hi : Fin 256,
      -32768 ≤ i16OfLe lo.val hi.val ∧ i16OfLe lo.val hi.val < 32768 ∧
      i16OfLe lo.val hi.val % 65536 = ((lo.val : Int) + 256 * hi.val) % 65536 := by
  refine ⟨by decide, ?_⟩
  intro ⟨lo, hlo⟩ ⟨hi, hhi⟩
  simp only [i16OfLe, i16OfRaw]
  split <;> refine ⟨by omega, by omega, ?_⟩ <;> omega

/-- C4: Event decode takes por_detected from bit 0 and persistent_err from
the 2-bit field in bits 1-2 mapped by ordinal onto PersistentErrors; the
byte 0b111 (bit 0 set, bits 1-2 = 0b11) decodes to por_detected = true and
persistent_err = AccGyrErr. -/
theorem event_decode_bits (b : Fin 256) :
    ((eventDecode b.val).por_detected = true ↔ b.val % 2 = 1) ∧
    ((eventDecode b.val).persistent_err = .NoErr ↔ b.val / 2 % 4 = 0) ∧
    ((eventDecode b.val).persistent_err = .AccErr ↔ b.val / 2 % 4 = 1) ∧
    ((eventDecode b.val).persistent_err = .GyrErr ↔ b.val / 2 % 4 = 2) ∧
    ((eventDecode b.val).persistent_err = .AccGyrErr ↔ b.val / 2 % 4 = 3) ∧
    eventDecode 0b111 = { por_detected := true, persistent_err := .AccGyrErr } := by
  revert b; decide

/-- C5: Status decode is total over all byte values 0x00-0xFF and fills each
of the five flags from its fixed bit position (acc bit 7, gyr bit 6, aux
bit 5, cmd bit 4, aux_dev_busy bit 2); all other bits are ignored, so
masking the byte to those five positions leaves the decoded value
unchanged. -/
theorem status_decode_bits (b : Fin 256) :
    ((statusDecode b.val).acc_data_ready = true ↔ b.val / 128 % 2 = 1) ∧
    ((statusDecode b.val).gyr_data_ready = true ↔ b.val / 64 % 2 = 1) ∧
    ((statusDecode b.val).aux_data_ready = true ↔ b.val / 32 % 2 = 1) ∧
    ((statusDecode b.val).cmd_ready = true ↔ b.val / 16 % 2 = 1) ∧
    ((statusDecode b.val).aux_dev_busy = true ↔ b.val / 4 % 2 = 1) ∧
    statusDecode b.val = statusDecode (b.val &&& 0xF4) := by
  revert b; decide

/-- C6: ErrorReg decode yields fatal_err from bit 0, internal_err as the
4-bit nibble in bits 1-4 (hence always below 16, tighter than the data
model's stated 0-255 range), fifo_err from bit 6 and aux_err from bit 7;
the byte 0b00010101 decodes to fatal_err = true, internal_err = 0b1010,
fifo_err = false, aux_err = false. -/
theorem errorReg_decode_bits (b : Fin 256) :
    (errorRegDecode b.val).internal_err < 16 ∧
    ((errorRegDecode b.val).fatal_err = true ↔ b.val % 2 = 1) ∧
    (errorRegDecode b.val).internal_err = b.val / 2 % 16 ∧
    ((errorRegDecode b.val).fifo_err = true ↔ b.val / 64 % 2 = 1) ∧
    ((errorRegDecode b.val).aux_err = true ↔ b.val / 128 % 2 = 1) ∧
    errorRegDecode 0b00010101 =
      { fatal_err := true, internal_err := 0b1010, fifo_err := false, aux_err := false } := by
  revert b; decide

/-- C7: InternalStatus decode maps the 4-bit message nibble onto Message by
ordinal lookup for the 8 documented codes 0-7, and every nibble value 8-15
outside the documented codes yields the fallback variant DrvErr; decode is
total over all input bytes (it is a plain function of the byte). -/
theorem internalStatus_decode_fallback (b : Fin 256) :
    (8 ≤ b.val % 16 → (internalStatusDecode b.val).message = .DrvErr) ∧
    (internalStatusDecode b.val).message = messageDecode (b.val % 16) ∧
    messageDecode 0 = .NotInit ∧ messageDecode 1 = .InitOk ∧
    messageDecode 2 = .InitErr ∧ messageDecode 3 = .DrvErr ∧
    messageDecode 4 = .SnsErr ∧ messageDecode 5 = .NvmErr ∧
    messageDecode 6 = .StartUpErr ∧ messageDecode 7 = .CompatErr := by
  revert b; decide

/-- C7 witness: the undocumented nibble 8 indeed falls back to DrvErr. -/
theorem internalStatus_decode_fallback_witness :
    (internalStatusDecode 8).message = Message.DrvErr :=
  (internalStatus_decode_fallback 8).1 (by decide)

/-- C8: every decoder of the layer is deterministic: on any fixed raw input
two invocations yield structurally equal typed values; in this embedding
every decoder is a pure function of its byte input, with no other state
entering the result. -/
theorem decode_deterministic (bs : List Nat) (b : Nat) :
    axisDataDecode bs = axisDataDecode bs ∧
    auxDataDecode bs = auxDataDecode bs ∧
    statusDecode b = statusDecode b ∧
    errorRegDecode b = errorRegDecode b ∧
    eventDecode b = eventDecode b ∧
    internalStatusDecode b = internalStatusDecode b ∧
    wristGestureDecode b = wristGestureDecode b ∧
    activityDecode b = activityDecode b ∧
    accConfDecode b = accConfDecode b :=
  ⟨rfl, rfl, rfl, rfl, rfl, rfl, rfl, rfl, rfl⟩

/-- C9: the AuxData field r is a signed 16-bit quantity: whenever the raw
16-bit register value has its high bit set (high byte at least 128, i.e.
raw value in 0x8000-0xFFFF) the decoded r is negative, equal to the raw
little-endian value minus 2^16 rather than the unsigned value. -/
theorem auxData_r_twos_complement (lo hi : Nat) (h1 : lo < 256) (h2 : 128 ≤ hi)
    (h3 : hi < 256) :
    i16OfLe lo hi < 0 ∧
    i16OfLe lo hi = (lo : Int) + 256 * hi - 65536 ∧
    (auxDataDecode [0, 0, 0, 0, 0, 0, lo, hi]).map AuxData.r = some (i16OfLe lo hi) := by
  refine ⟨?_, ?_, rfl⟩ <;>
  · simp only [i16OfLe, i16OfRaw]
    split <;> omega

/-- C9 witness: raw value 0x8000 (lo = 0, hi = 128) decodes to a negative r. -/
theorem auxData_r_twos_complement_witness :
    i16OfLe 0 128 < 0 ∧
    i16OfLe 0 128 = (0 : Int) + 256 * 128 - 65536 ∧
    (auxDataDecode [0, 0, 0, 0, 0, 0, 0, 128]).map AuxData.r = some (i16OfLe 0 128) :=
  auxData_r_twos_complement 0 128 (by decide) (by decide) (by decide)

/-- C10: the two classification enumerations place their fallback variant at
different ordinals: WristGesture.Unknown sits at ordinal 0 while
Activity.Unknown sits at ordinal 3, so ordinal decoding of raw code 0
yields WristGesture.Unknown for gestures but Activity.Still for activity
(and ordinal decoding inverts the ordinal map on every variant). -/
theorem fallback_ordinals_differ :
    wristGestureBits .Unknown = 0 ∧ activityBits .Unknown = 3 ∧
    wristGestureDecode 0 = .Unknown ∧ activityDecode 0 = .Still ∧
    (∀ g : WristGesture, wristGestureDecode (wristGestureBits g) = g) ∧
    (∀ a : Activity, activityDecode (activityBits a) = a) := by
  refine ⟨rfl, rfl, rfl, rfl, ?_, ?_⟩ <;> intro x <;> cases x <;> rfl

end Bmi270
